import Mathlib

/-!
Shallow embedding of the NIC configuration host manager
(file pkg/host/host.go of the nic-configuration-operator repository).

The engine is a pure decision/apply core that talks to the host only
through two injected collaborators: the host utilities (`HostUtils`) and
the configuration validator (`ConfigValidation`).  Both collaborators are
outside the given sources, so they are embedded as bundles of functions
(oracles); the engine's own control flow is translated statement by
statement from host.go.  Each engine operation additionally returns the
list of mutating host calls it issued, in order, so that theorems can
speak about which writes were performed.  A Go slice index out of range
(a panic) is modelled by the engine operation returning `none`.
-/

/-- Errors produced by host utilities or by the engine.  The Go code
distinguishes plain errors from `types.IncorrectSpecError` (the spec-error
taxonomy of the specification); the two constructors keep that
distinction. -/
inductive EngineError where
  | hostError (msg : String)
  | incorrectSpecError (msg : String)
deriving DecidableEq, Repr

/-- Modelled from the spec: the Mellanox PCI vendor identifier used by the
discovery filter (`consts.MellanoxVendor`; the consts package is not part
of the given sources). -/
def MellanoxVendor : String := "15b3"

/-- Modelled from the spec: the network-controller PCI class code
(`consts.NetClass`; the consts package is not part of the given
sources). -/
def NetClass : Int := 2

/-- Modelled from the spec: the name of the advanced-PCI-settings gate
parameter (`consts.AdvancedPCISettingsParam`; the consts package is not
part of the given sources). -/
def AdvancedPCISettingsParam : String := "ADVANCED_PCI_SETTINGS"

/-- Modelled from the spec: the string value representing true for an nv
parameter (`consts.NvParamTrue`; the consts package is not part of the
given sources). -/
def NvParamTrue : String := "1"

/-- One port of a NIC device (v1alpha1.NicDevicePortSpec). -/
structure NicDevicePortSpec where
  PCI : String
  NetworkInterface : String
  RdmaInterface : String
deriving DecidableEq, Repr

/-- Status of a NIC device (v1alpha1.NicDeviceStatus).  The Go field
`Type` is called `Typ` here because `Type` is reserved in Lean. -/
structure NicDeviceStatus where
  Typ : String
  SerialNumber : String
  PartNumber : String
  PSID : String
  FirmwareVersion : String
  Node : String
  Ports : List NicDevicePortSpec
deriving DecidableEq, Repr

/-- Device configuration spec (v1alpha1); only the field the engine reads
is carried. -/
structure NicDeviceConfiguration where
  ResetToDefault : Bool
deriving DecidableEq, Repr

structure NicDeviceSpec where
  Configuration : NicDeviceConfiguration
deriving DecidableEq, Repr

/-- A NIC device resource (v1alpha1.NicDevice). -/
structure NicDevice where
  Name : String
  Spec : NicDeviceSpec
  Status : NicDeviceStatus
deriving DecidableEq, Repr

/-- Raw PCI device record as produced by the host query
(the fields of ghw's PCIDevice that host.go reads). -/
structure PCIDevice where
  Address : String
  VendorID : String
  ClassID : String
  ProductID : String
  ProductName : String
deriving DecidableEq, Repr

/-- The three-state non-volatile configuration snapshot
(types.NvConfigQuery): parameter name to string value maps. -/
structure NvConfig where
  CurrentConfig : List (String × String)
  NextBootConfig : List (String × String)
  DefaultConfig : List (String × String)
deriving DecidableEq, Repr

/-- Lookup in an association list, the embedding of a Go map read. -/
def alistLookup {β : Type} : List (String × β) → String → Option β
  | [], _ => none
  | (k, v) :: rest, key => if k = key then some v else alistLookup rest key

/-- Insert (replace-or-append) in an association list, the embedding of a
Go map write. -/
def mapInsert {β : Type} (key : String) (val : β) :
    List (String × β) → List (String × β)
  | [] => [(key, val)]
  | (k, v) :: rest =>
    if k = key then (key, val) :: rest else (k, v) :: mapInsert key val rest

/-- Value of a hexadecimal digit, as accepted by Go's strconv.ParseInt
with base 16. -/
def hexDigitVal : Char → Option Nat := fun c =>
  if '0' ≤ c ∧ c ≤ '9' then some (c.toNat - '0'.toNat)
  else if 'a' ≤ c ∧ c ≤ 'f' then some (c.toNat - 'a'.toNat + 10)
  else if 'A' ≤ c ∧ c ≤ 'F' then some (c.toNat - 'A'.toNat + 10)
  else none

/-- Accumulating hexadecimal parse of a digit string. -/
def hexNatAux : List Char → Nat → Option Nat
  | [], acc => some acc
  | c :: cs, acc =>
    match hexDigitVal c with
    | none => none
    | some d => hexNatAux cs (acc * 16 + d)

/-- Embedding of Go's strconv.ParseInt(s, 16, 64): an optional sign, a
non-empty run of hexadecimal digits, and a 64-bit range check.  `none`
models a parse error. -/
def parseInt16 (s : String) : Option Int :=
  match s.data with
  | [] => none
  | '+' :: rest =>
    if rest = [] then none
    else (hexNatAux rest 0).bind fun n =>
      if n ≤ 2 ^ 63 - 1 then some (Int.ofNat n) else none
  | '-' :: rest =>
    if rest = [] then none
    else (hexNatAux rest 0).bind fun n =>
      if n ≤ 2 ^ 63 then some (-(Int.ofNat n)) else none
  | cs =>
    (hexNatAux cs 0).bind fun n =>
      if n ≤ 2 ^ 63 - 1 then some (Int.ofNat n) else none

/-- Observable host calls recorded by the engine, in issue order. -/
inductive HostCall where
  | queryNvConfig (addr : String)
  | setNvConfigParameter (addr paramName value : String)
  | resetNvConfig (addr : String)
  | resetNicFirmware (addr : String)
  | setMaxReadRequestSize (addr : String) (size : Int)
  | setTrustAndPFC (interfaceName trust pfc : String)
deriving DecidableEq, Repr

/-- The host utilities collaborator (interface HostUtils, outside the
given sources), embedded as a bundle of response functions.  Functions
returning `Option EngineError` yield `none` on success.  `queryNvConfig`
additionally takes the index of the query within one engine call, because
ApplyDeviceNvSpec queries twice and a firmware reset in between may change
the answer. -/
structure HostUtils where
  getPCIDevices : Except EngineError (List PCIDevice)
  isSriovVF : String → Bool
  getPartAndSerialNumber : String → Except EngineError (String × String)
  getFirmwareVersionAndPSID : String → Except EngineError (String × String)
  getInterfaceName : String → String
  getRDMADeviceName : String → String
  queryNvConfig : Nat → String → Except EngineError NvConfig
  setNvConfigParameter : String → String → String → Option EngineError
  resetNvConfig : String → Option EngineError
  resetNicFirmware : String → Option EngineError
  setMaxReadRequestSize : String → Int → Option EngineError
  setTrustAndPFC : String → String → String → Option EngineError

/-- The configuration validation collaborator (configValidation, outside
the given sources), embedded as a bundle of response functions.
`runtimeConfigApplied` returns a pair because the Go function returns both
a boolean and an error and the caller reads the boolean even when the
error is non-nil. -/
structure ConfigValidation where
  validateResetToDefault : NvConfig → Bool × Bool × Option EngineError
  constructNvParamMapFromTemplate :
    NicDevice → List (String × String) → Except EngineError (List (String × String))
  advancedPCISettingsEnabled : List (String × String) → Bool
  runtimeConfigApplied : NicDevice → Bool × Option EngineError
  calculateDesiredRuntimeConfig : NicDevice → Int × String × String

/-- The parameter loop of ValidateDeviceNvSpec (host.go lines 166-183):
walks the desired configuration, accumulating the two flags, and returns
an IncorrectSpecError as soon as advanced PCI settings are enabled but a
desired parameter is absent from the current configuration. -/
def validateLoop (devName : String) (nvConfig : NvConfig) (advanced : Bool) :
    List (String × String) → Bool → Bool → Bool × Bool × Option EngineError
  | [], configUpdateNeeded, rebootNeeded => (configUpdateNeeded, rebootNeeded, none)
  | (paramName, desiredValue) :: rest, configUpdateNeeded, rebootNeeded =>
    if advanced = true ∧ alistLookup nvConfig.CurrentConfig paramName = none then
      (false, false, some (.incorrectSpecError
        ("Parameter " ++ paramName ++ " unsupported for device " ++ devName)))
    else if alistLookup nvConfig.NextBootConfig paramName = some desiredValue then
      if ¬ alistLookup nvConfig.CurrentConfig paramName = some desiredValue then
        validateLoop devName nvConfig advanced rest configUpdateNeeded true
      else
        validateLoop devName nvConfig advanced rest configUpdateNeeded rebootNeeded
    else
      validateLoop devName nvConfig advanced rest true true

/-- Body of ValidateDeviceNvSpec after the port-0 PCI address has been
read (host.go lines 144-185). -/
def validateCore (hu : HostUtils) (cv : ConfigValidation) (device : NicDevice)
    (pciAddr : String) : (Bool × Bool × Option EngineError) × List HostCall :=
  match hu.queryNvConfig 0 pciAddr with
  | .error e => ((false, false, some e), [.queryNvConfig pciAddr])
  | .ok nvConfig =>
    if device.Spec.Configuration.ResetToDefault then
      (cv.validateResetToDefault nvConfig, [.queryNvConfig pciAddr])
    else
      match cv.constructNvParamMapFromTemplate device nvConfig.DefaultConfig with
      | .error e => ((false, false, some e), [.queryNvConfig pciAddr])
      | .ok desiredConfig =>
        (validateLoop device.Name nvConfig
          (cv.advancedPCISettingsEnabled nvConfig.CurrentConfig)
          desiredConfig false false,
         [.queryNvConfig pciAddr])

/-- ValidateDeviceNvSpec (host.go lines 141-186).  The result is the
triple (configUpdateNeeded, rebootNeeded, error) together with the host
call trace; `none` models the Go panic on `device.Status.Ports[0]` when
the port list is empty. -/
def ValidateDeviceNvSpec (hu : HostUtils) (cv : ConfigValidation)
    (device : NicDevice) :
    Option ((Bool × Bool × Option EngineError) × List HostCall) :=
  match device.Status.Ports with
  | [] => none
  | port0 :: _ => some (validateCore hu cv device port0.PCI)

/-- The diff loop of ApplyDeviceNvSpec (host.go lines 249-260): every
desired parameter must be present in the next-boot configuration
(absence is an IncorrectSpecError); the parameters whose next-boot value
differs from the desired value form the write set, in desired order. -/
def collectParamsToApply (devName : String)
    (nextBootConfig : List (String × String)) :
    List (String × String) → Except EngineError (List (String × String))
  | [] => .ok []
  | (paramName, value) :: rest =>
    match alistLookup nextBootConfig paramName with
    | none => .error (.incorrectSpecError
        ("Parameter " ++ paramName ++ " unsupported for device " ++ devName))
    | some nextVal =>
      match collectParamsToApply devName nextBootConfig rest with
      | .error e => .error e
      | .ok tail =>
        .ok (if ¬ nextVal = value then (paramName, value) :: tail else tail)

/-- The write loop of ApplyDeviceNvSpec (host.go lines 264-270): writes
sequentially, aborting on the first failure with the already-made calls
recorded. -/
def applyWrites (hu : HostUtils) (pciAddr : String) :
    List (String × String) → Option EngineError × List HostCall
  | [] => (none, [])
  | (paramName, value) :: rest =>
    match hu.setNvConfigParameter pciAddr paramName value with
    | some e => (some e, [.setNvConfigParameter pciAddr paramName value])
    | none =>
      match applyWrites hu pciAddr rest with
      | (r, tr) => (r, .setNvConfigParameter pciAddr paramName value :: tr)

/-- Phase 2 of ApplyDeviceNvSpec (host.go lines 241-274): build the
desired configuration, diff it against the next-boot configuration, and
write the difference.  `trAcc` is the trace accumulated by the earlier
phases. -/
def applyPhase2 (hu : HostUtils) (cv : ConfigValidation) (device : NicDevice)
    (pciAddr : String) (nvConfig : NvConfig) (trAcc : List HostCall) :
    (Bool × Option EngineError) × List HostCall :=
  match cv.constructNvParamMapFromTemplate device nvConfig.DefaultConfig with
  | .error e => ((false, some e), trAcc)
  | .ok desiredConfig =>
    match collectParamsToApply device.Name nvConfig.NextBootConfig desiredConfig with
    | .error e => ((false, some e), trAcc)
    | .ok paramsToApply =>
      match applyWrites hu pciAddr paramsToApply with
      | (some e, wtr) => ((false, some e), trAcc ++ wtr)
      | (none, wtr) => ((true, none), trAcc ++ wtr)

/-- Body of ApplyDeviceNvSpec after the port-0 PCI address has been read
(host.go lines 196-274). -/
def applyCore (hu : HostUtils) (cv : ConfigValidation) (device : NicDevice)
    (pciAddr : String) : (Bool × Option EngineError) × List HostCall :=
  if device.Spec.Configuration.ResetToDefault then
    match hu.resetNvConfig pciAddr with
    | some e => ((false, some e), [.resetNvConfig pciAddr])
    | none =>
      match hu.setNvConfigParameter pciAddr AdvancedPCISettingsParam NvParamTrue with
      | some e => ((false, some e),
          [.resetNvConfig pciAddr,
           .setNvConfigParameter pciAddr AdvancedPCISettingsParam NvParamTrue])
      | none => ((true, none),
          [.resetNvConfig pciAddr,
           .setNvConfigParameter pciAddr AdvancedPCISettingsParam NvParamTrue])
  else
    match hu.queryNvConfig 0 pciAddr with
    | .error e => ((false, some e), [.queryNvConfig pciAddr])
    | .ok nvConfig0 =>
      if cv.advancedPCISettingsEnabled nvConfig0.CurrentConfig then
        applyPhase2 hu cv device pciAddr nvConfig0 [.queryNvConfig pciAddr]
      else
        match hu.setNvConfigParameter pciAddr AdvancedPCISettingsParam NvParamTrue with
        | some e => ((false, some e),
            [.queryNvConfig pciAddr,
             .setNvConfigParameter pciAddr AdvancedPCISettingsParam NvParamTrue])
        | none =>
          match hu.resetNicFirmware pciAddr with
          | some e => ((false, some e),
              [.queryNvConfig pciAddr,
               .setNvConfigParameter pciAddr AdvancedPCISettingsParam NvParamTrue,
               .resetNicFirmware pciAddr])
          | none =>
            match hu.queryNvConfig 1 pciAddr with
            | .error e => ((false, some e),
                [.queryNvConfig pciAddr,
                 .setNvConfigParameter pciAddr AdvancedPCISettingsParam NvParamTrue,
                 .resetNicFirmware pciAddr, .queryNvConfig pciAddr])
            | .ok nvConfig1 =>
              applyPhase2 hu cv device pciAddr nvConfig1
                [.queryNvConfig pciAddr,
                 .setNvConfigParameter pciAddr AdvancedPCISettingsParam NvParamTrue,
                 .resetNicFirmware pciAddr, .queryNvConfig pciAddr]

/-- ApplyDeviceNvSpec (host.go lines 191-275).  The result is the pair
(rebootNeeded, error) together with the host call trace; `none` models
the Go panic on `device.Status.Ports[0]` when the port list is empty. -/
def ApplyDeviceNvSpec (hu : HostUtils) (cv : ConfigValidation)
    (device : NicDevice) :
    Option ((Bool × Option EngineError) × List HostCall) :=
  match device.Status.Ports with
  | [] => none
  | port0 :: _ => some (applyCore hu cv device port0.PCI)

/-- The second port of the port list exactly when the Go check
`len(ports) == 2` passes (host.go lines 302, 316). -/
def secondPort : List NicDevicePortSpec → Option NicDevicePortSpec
  | [_, p1] => some p1
  | _ => none

/-- The trust-and-PFC block of ApplyDeviceRuntimeSpec (host.go lines
311-322): port 0 always, port 1 only when the device has exactly two
ports; abort on the first failure. -/
def applyTrustAndPFC (hu : HostUtils) (port0 : NicDevicePortSpec)
    (sndPort : Option NicDevicePortSpec) (trust pfc : String) :
    Option EngineError × List HostCall :=
  match hu.setTrustAndPFC port0.NetworkInterface trust pfc with
  | some e => (some e, [.setTrustAndPFC port0.NetworkInterface trust pfc])
  | none =>
    match sndPort with
    | none => (none, [.setTrustAndPFC port0.NetworkInterface trust pfc])
    | some port1 =>
      match hu.setTrustAndPFC port1.NetworkInterface trust pfc with
      | some e => (some e,
          [.setTrustAndPFC port0.NetworkInterface trust pfc,
           .setTrustAndPFC port1.NetworkInterface trust pfc])
      | none => (none,
          [.setTrustAndPFC port0.NetworkInterface trust pfc,
           .setTrustAndPFC port1.NetworkInterface trust pfc])

/-- Body of ApplyDeviceRuntimeSpec once the port list is known non-empty
(host.go lines 292-324): the max-read-request-size block runs only when
the desired size is non-zero, then the trust-and-PFC block runs. -/
def runtimeCore (hu : HostUtils) (port0 : NicDevicePortSpec)
    (sndPort : Option NicDevicePortSpec) (rc : Int × String × String) :
    Option EngineError × List HostCall :=
  match rc with
  | (desiredMaxReadReqSize, desiredTrust, desiredPfc) =>
    if ¬ desiredMaxReadReqSize = 0 then
      match hu.setMaxReadRequestSize port0.PCI desiredMaxReadReqSize with
      | some e => (some e, [.setMaxReadRequestSize port0.PCI desiredMaxReadReqSize])
      | none =>
        match sndPort with
        | none =>
          match applyTrustAndPFC hu port0 sndPort desiredTrust desiredPfc with
          | (r, tr) =>
            (r, .setMaxReadRequestSize port0.PCI desiredMaxReadReqSize :: tr)
        | some port1 =>
          match hu.setMaxReadRequestSize port1.PCI desiredMaxReadReqSize with
          | some e => (some e,
              [.setMaxReadRequestSize port0.PCI desiredMaxReadReqSize,
               .setMaxReadRequestSize port1.PCI desiredMaxReadReqSize])
          | none =>
            match applyTrustAndPFC hu port0 sndPort desiredTrust desiredPfc with
            | (r, tr) =>
              (r, .setMaxReadRequestSize port0.PCI desiredMaxReadReqSize ::
                  .setMaxReadRequestSize port1.PCI desiredMaxReadReqSize :: tr)
    else
      applyTrustAndPFC hu port0 sndPort desiredTrust desiredPfc

/-- ApplyDeviceRuntimeSpec (host.go lines 279-325).  An error from
runtimeConfigApplied is only logged by the Go code, so it does not appear
in the result; `none` models the Go panic on `ports[0]` when the port
list is empty and the runtime config is not already applied. -/
def ApplyDeviceRuntimeSpec (hu : HostUtils) (cv : ConfigValidation)
    (device : NicDevice) : Option (Option EngineError × List HostCall) :=
  if (cv.runtimeConfigApplied device).1 then some (none, [])
  else
    match device.Status.Ports with
    | [] => none
    | port0 :: rest =>
      some (runtimeCore hu port0 (secondPort (port0 :: rest))
        (cv.calculateDesiredRuntimeConfig device))

/-- One iteration of the discovery loop (host.go lines 67-129): filter by
vendor, parsed class, and virtual-function status; fetch part and serial
number; group by serial number, fetching firmware version and PSID only
for a serial number not seen before; append the port and set the node
name. -/
def discoverStep (hu : HostUtils) (nodeName : String)
    (devices : List (String × NicDeviceStatus)) (device : PCIDevice) :
    Except EngineError (List (String × NicDeviceStatus)) :=
  if ¬ device.VendorID = MellanoxVendor then .ok devices
  else
    match parseInt16 device.ClassID with
    | none => .ok devices
    | some devClass =>
      if ¬ devClass = NetClass then .ok devices
      else if hu.isSriovVF device.Address then .ok devices
      else
        match hu.getPartAndSerialNumber device.Address with
        | .error e => .error e
        | .ok (partNumber, serialNumber) =>
          match alistLookup devices serialNumber with
          | some st =>
            let st' : NicDeviceStatus :=
              { st with
                Ports := st.Ports ++
                  [{ PCI := device.Address,
                     NetworkInterface := hu.getInterfaceName device.Address,
                     RdmaInterface := hu.getRDMADeviceName device.Address }],
                Node := nodeName }
            .ok (mapInsert st'.SerialNumber st' devices)
          | none =>
            match hu.getFirmwareVersionAndPSID device.Address with
            | .error e => .error e
            | .ok (firmwareVersion, psid) =>
              let st0 : NicDeviceStatus :=
                { Typ := device.ProductID,
                  SerialNumber := serialNumber,
                  PartNumber := partNumber,
                  PSID := psid,
                  FirmwareVersion := firmwareVersion,
                  Node := "",
                  Ports := [] }
              let devices1 := mapInsert serialNumber st0 devices
              let st' : NicDeviceStatus :=
                { st0 with
                  Ports := st0.Ports ++
                    [{ PCI := device.Address,
                       NetworkInterface := hu.getInterfaceName device.Address,
                       RdmaInterface := hu.getRDMADeviceName device.Address }],
                  Node := nodeName }
              .ok (mapInsert st'.SerialNumber st' devices1)

/-- The discovery loop over the enumerated PCI devices (host.go lines
67-129). -/
def discoverLoop (hu : HostUtils) (nodeName : String) :
    List PCIDevice → List (String × NicDeviceStatus) →
    Except EngineError (List (String × NicDeviceStatus))
  | [], devices => .ok devices
  | d :: rest, devices =>
    match discoverStep hu nodeName devices d with
    | .error e => .error e
    | .ok devices' => discoverLoop hu nodeName rest devices'

/-- DiscoverNicDevices (host.go lines 55-132): enumerate PCI devices and
fold the discovery loop starting from the empty map. -/
def DiscoverNicDevices (hu : HostUtils) (nodeName : String) :
    Except EngineError (List (String × NicDeviceStatus)) :=
  match hu.getPCIDevices with
  | .error e => .error e
  | .ok pciDevices => discoverLoop hu nodeName pciDevices []

/-! ### Concrete instances used by counterexamples and witnesses -/

/-- A host-utility bundle in which every call succeeds with fixed
answers. -/
def huBase : HostUtils :=
  { getPCIDevices := .ok []
    isSriovVF := fun _ => false
    getPartAndSerialNumber := fun _ => .ok ("P3653X", "SN100")
    getFirmwareVersionAndPSID := fun _ => .ok ("20.39.1002", "MT_0000000222")
    getInterfaceName := fun _ => "enp3s0f0"
    getRDMADeviceName := fun _ => "mlx5_0"
    queryNvConfig := fun _ _ =>
      .ok { CurrentConfig := [], NextBootConfig := [], DefaultConfig := [] }
    setNvConfigParameter := fun _ _ _ => none
    resetNvConfig := fun _ => none
    resetNicFirmware := fun _ => none
    setMaxReadRequestSize := fun _ _ => none
    setTrustAndPFC := fun _ _ _ => none }

/-- A configuration-validation bundle: the desired nv config is the
default config itself, and the advanced gate is read off the current
config. -/
def cvBase : ConfigValidation :=
  { validateResetToDefault := fun _ => (false, false, none)
    constructNvParamMapFromTemplate := fun _ defaultConfig => .ok defaultConfig
    advancedPCISettingsEnabled := fun cur =>
      alistLookup cur AdvancedPCISettingsParam == some NvParamTrue
    runtimeConfigApplied := fun _ => (false, none)
    calculateDesiredRuntimeConfig := fun _ => (4096, "dscp", "0,0,0,1,0,0,0,0") }

def portA : NicDevicePortSpec :=
  { PCI := "0000:03:00.0", NetworkInterface := "enp3s0f0", RdmaInterface := "mlx5_0" }

def devBase : NicDevice :=
  { Name := "nic-1"
    Spec := { Configuration := { ResetToDefault := false } }
    Status := { Typ := "101d", SerialNumber := "SN100", PartNumber := "P3653X",
                PSID := "MT_0000000222", FirmwareVersion := "20.39.1002",
                Node := "", Ports := [portA] } }

/-- The same device with an empty port list. -/
def devNoPorts : NicDevice :=
  { devBase with Status := { devBase.Status with Ports := [] } }

/-- The same device requesting reset to default. -/
def devReset : NicDevice :=
  { devBase with Spec := { Configuration := { ResetToDefault := true } } }

/-- Current value already desired, next-boot value absent. -/
def nvC1 : NvConfig :=
  { CurrentConfig := [("P1", "1")], NextBootConfig := [],
    DefaultConfig := [("P1", "1")] }

def huC1 : HostUtils := { huBase with queryNvConfig := fun _ _ => .ok nvC1 }

/-- Current and next-boot values both already desired. -/
def nvW1 : NvConfig :=
  { CurrentConfig := [("P1", "4")], NextBootConfig := [("P1", "4")],
    DefaultConfig := [("P1", "4")] }

def huW1 : HostUtils := { huBase with queryNvConfig := fun _ _ => .ok nvW1 }

/-- Current value wrong, next-boot value absent, advanced gate off. -/
def nvW2 : NvConfig :=
  { CurrentConfig := [("P1", "0")], NextBootConfig := [],
    DefaultConfig := [("P1", "1")] }

def huW2 : HostUtils := { huBase with queryNvConfig := fun _ _ => .ok nvW2 }

/-- Advanced gate on; desired parameter absent from current config but
present (with the wrong value) in next-boot config. -/
def nvC3 : NvConfig :=
  { CurrentConfig := [(AdvancedPCISettingsParam, NvParamTrue)],
    NextBootConfig := [("P1", "0")],
    DefaultConfig := [("P1", "1")] }

def huC3 : HostUtils := { huBase with queryNvConfig := fun _ _ => .ok nvC3 }

/-- Advanced gate on; desired parameter absent from both current and
next-boot configs. -/
def nvW3 : NvConfig :=
  { CurrentConfig := [(AdvancedPCISettingsParam, NvParamTrue)],
    NextBootConfig := [],
    DefaultConfig := [("P1", "1")] }

def huW3 : HostUtils := { huBase with queryNvConfig := fun _ _ => .ok nvW3 }

/-- Advanced gate on; next-boot value already desired (empty write set). -/
def nvW4 : NvConfig :=
  { CurrentConfig := [(AdvancedPCISettingsParam, NvParamTrue)],
    NextBootConfig := [("P1", "1")],
    DefaultConfig := [("P1", "1")] }

def huW4 : HostUtils := { huBase with queryNvConfig := fun _ _ => .ok nvW4 }

/-- A validator whose runtime-config check reports an error. -/
def cvC7 : ConfigValidation :=
  { cvBase with runtimeConfigApplied :=
      fun _ => (false, some (.hostError "runtime check failed")) }

/-- A validator whose desired max read request size is zero. -/
def cvC8 : ConfigValidation :=
  { cvBase with calculateDesiredRuntimeConfig :=
      fun _ => (0, "dscp", "0,0,0,1,0,0,0,0") }

/-- A Mellanox PCI device whose class code does not parse. -/
def pciBadClass : PCIDevice :=
  { Address := "0000:05:00.0", VendorID := "15b3", ClassID := "zz",
    ProductID := "101d", ProductName := "CX7" }

/-- A Mellanox network-class physical function. -/
def pciGood : PCIDevice :=
  { Address := "0000:03:00.0", VendorID := "15b3", ClassID := "02",
    ProductID := "101d", ProductName := "CX7" }

def huPartErr : HostUtils :=
  { huBase with
    getPCIDevices := .ok [pciGood]
    getPartAndSerialNumber := fun _ => .error (.hostError "lspci failed") }

def huFwErr : HostUtils :=
  { huBase with
    getFirmwareVersionAndPSID := fun _ => .error (.hostError "mstflint failed") }

def huW10 : HostUtils := { huBase with getPCIDevices := .ok [pciGood] }

/-- The device-status entry produced by discovering `pciGood` through
`huW10` on node-a. -/
def stW10 : NicDeviceStatus :=
  { Typ := "101d", SerialNumber := "SN100", PartNumber := "P3653X",
    PSID := "MT_0000000222", FirmwareVersion := "20.39.1002",
    Node := "node-a",
    Ports := [{ PCI := "0000:03:00.0", NetworkInterface := "enp3s0f0",
                RdmaInterface := "mlx5_0" }] }

/-! ### Helper lemmas about the validate loop -/

lemma validateLoop_all_match (devName : String) (nvConfig : NvConfig)
    (advanced : Bool) (pairs : List (String × String)) (u r : Bool)
    (h : ∀ pv ∈ pairs, alistLookup nvConfig.CurrentConfig pv.1 = some pv.2 ∧
        alistLookup nvConfig.NextBootConfig pv.1 = some pv.2) :
    validateLoop devName nvConfig advanced pairs u r = (u, r, none) := by
  induction pairs generalizing u r with
  | nil => rfl
  | cons pv rest ih =>
    obtain ⟨p, v⟩ := pv
    obtain ⟨hc, hn⟩ := h (p, v) (List.mem_cons_self _ _)
    simp only [validateLoop]
    rw [if_neg (by simp [hc]), if_pos hn, if_neg (by simp [hc])]
    exact ih u r (fun pv hpv => h pv (List.mem_cons_of_mem _ hpv))

lemma validateLoop_false_false (devName : String) (nvConfig : NvConfig)
    (advanced : Bool) (pairs : List (String × String)) (u r : Bool)
    (h : validateLoop devName nvConfig advanced pairs u r = (false, false, none)) :
    u = false ∧ r = false ∧
      ∀ pv ∈ pairs, alistLookup nvConfig.CurrentConfig pv.1 = some pv.2 ∧
        alistLookup nvConfig.NextBootConfig pv.1 = some pv.2 := by
  induction pairs generalizing u r with
  | nil =>
    simp only [validateLoop, Prod.mk.injEq] at h
    exact ⟨h.1, h.2.1, by simp⟩
  | cons pv rest ih =>
    obtain ⟨p, v⟩ := pv
    simp only [validateLoop] at h
    split at h
    · simp at h
    · split at h
      · split at h
        · obtain ⟨_, hr, _⟩ := ih u true h
          cases hr
        · rename_i hnadv hnb hcur
          obtain ⟨hu, hr, hrest⟩ := ih u r h
          refine ⟨hu, hr, ?_⟩
          intro pv hpv
          rcases List.mem_cons.mp hpv with heq | hmem
          · subst heq
            exact ⟨not_not.mp hcur, hnb⟩
          · exact hrest pv hmem
      · obtain ⟨hu, _, _⟩ := ih true true h
        cases hu

lemma validateLoop_true_true_noerr (devName : String) (nvConfig : NvConfig)
    (advanced : Bool) (pairs : List (String × String))
    (h : ∀ pv ∈ pairs,
        ¬(advanced = true ∧ alistLookup nvConfig.CurrentConfig pv.1 = none)) :
    validateLoop devName nvConfig advanced pairs true true = (true, true, none) := by
  induction pairs with
  | nil => rfl
  | cons pv rest ih =>
    obtain ⟨p, v⟩ := pv
    have h0 := h (p, v) (List.mem_cons_self _ _)
    have ih' := ih (fun pv hpv => h pv (List.mem_cons_of_mem _ hpv))
    simp only [validateLoop]
    rw [if_neg h0]
    split
    · split
      · exact ih'
      · exact ih'
    · exact ih'

lemma validateLoop_exists_mismatch (devName : String) (nvConfig : NvConfig)
    (advanced : Bool) (pairs : List (String × String)) (u r : Bool)
    (hnov : ∀ pv ∈ pairs,
        ¬(advanced = true ∧ alistLookup nvConfig.CurrentConfig pv.1 = none))
    (hex : ∃ pv ∈ pairs, ¬ alistLookup nvConfig.NextBootConfig pv.1 = some pv.2) :
    validateLoop devName nvConfig advanced pairs u r = (true, true, none) := by
  induction pairs generalizing u r with
  | nil => simp at hex
  | cons pv rest ih =>
    obtain ⟨p, v⟩ := pv
    have h0 := hnov (p, v) (List.mem_cons_self _ _)
    have hnov' : ∀ pv ∈ rest,
        ¬(advanced = true ∧ alistLookup nvConfig.CurrentConfig pv.1 = none) :=
      fun pv hpv => hnov pv (List.mem_cons_of_mem _ hpv)
    simp only [validateLoop]
    rw [if_neg h0]
    by_cases hnb : alistLookup nvConfig.NextBootConfig p = some v
    · have hex' : ∃ pv ∈ rest,
          ¬ alistLookup nvConfig.NextBootConfig pv.1 = some pv.2 := by
        obtain ⟨q, hq, hqn⟩ := hex
        rcases List.mem_cons.mp hq with heq | hqrest
        · subst heq; exact absurd hnb hqn
        · exact ⟨q, hqrest, hqn⟩
      rw [if_pos hnb]
      split
      · exact ih _ _ hnov' hex'
      · exact ih _ _ hnov' hex'
    · rw [if_neg hnb]
      exact validateLoop_true_true_noerr devName nvConfig advanced rest hnov'

lemma validateLoop_exists_of_true (devName : String) (nvConfig : NvConfig)
    (advanced : Bool) (pairs : List (String × String)) (r b : Bool)
    (h : validateLoop devName nvConfig advanced pairs false r = (true, b, none)) :
    ∃ pv ∈ pairs, ¬ alistLookup nvConfig.NextBootConfig pv.1 = some pv.2 := by
  induction pairs generalizing r with
  | nil => simp [validateLoop] at h
  | cons pv rest ih =>
    obtain ⟨p, v⟩ := pv
    simp only [validateLoop] at h
    split at h
    · simp at h
    · split at h
      · rename_i hnb
        split at h
        · obtain ⟨q, hq, hqn⟩ := ih _ h
          exact ⟨q, List.mem_cons_of_mem _ hq, hqn⟩
        · obtain ⟨q, hq, hqn⟩ := ih _ h
          exact ⟨q, List.mem_cons_of_mem _ hq, hqn⟩
      · rename_i hnb
        exact ⟨(p, v), List.mem_cons_self _ _, hnb⟩

lemma validateLoop_spec_error (devName : String) (nvConfig : NvConfig)
    (pairs : List (String × String)) (p v : String) (u r : Bool)
    (hmem : (p, v) ∈ pairs)
    (hcur : alistLookup nvConfig.CurrentConfig p = none) :
    ∃ msg, validateLoop devName nvConfig true pairs u r =
      (false, false, some (.incorrectSpecError msg)) := by
  induction pairs generalizing u r with
  | nil => cases hmem
  | cons qw rest ih =>
    obtain ⟨q, w⟩ := qw
    simp only [validateLoop]
    by_cases hq : alistLookup nvConfig.CurrentConfig q = none
    · rw [if_pos (by exact ⟨by trivial, hq⟩)]
      exact ⟨_, rfl⟩
    · have hmem' : (p, v) ∈ rest := by
        rcases List.mem_cons.mp hmem with heq | h'
        · have hp : p = q := congrArg Prod.fst heq
          exact absurd (hp ▸ hcur) hq
        · exact h'
      rw [if_neg (by rintro ⟨_, hc⟩; exact hq hc)]
      split
      · split
        · exact ih _ _ hmem'
        · exact ih _ _ hmem'
      · exact ih _ _ hmem'

/-! ### Helper lemmas about the apply phases -/

lemma collectParamsToApply_spec_error (devName : String)
    (nextBootConfig : List (String × String)) (pairs : List (String × String))
    (p v : String) (hmem : (p, v) ∈ pairs)
    (habs : alistLookup nextBootConfig p = none) :
    ∃ msg, collectParamsToApply devName nextBootConfig pairs =
      .error (.incorrectSpecError msg) := by
  induction pairs with
  | nil => cases hmem
  | cons qw rest ih =>
    obtain ⟨q, w⟩ := qw
    simp only [collectParamsToApply]
    cases hq : alistLookup nextBootConfig q with
    | none => exact ⟨_, rfl⟩
    | some nextVal =>
      have hmem' : (p, v) ∈ rest := by
        rcases List.mem_cons.mp hmem with heq | h'
        · have hp : p = q := congrArg Prod.fst heq
          rw [hp, hq] at habs
          cases habs
        · exact h'
      obtain ⟨msg, hmsg⟩ := ih hmem'
      rw [hmsg]
      exact ⟨msg, rfl⟩

lemma applyWrites_all_success (hu : HostUtils) (pciAddr : String)
    (ps : List (String × String))
    (h : ∀ pv ∈ ps, hu.setNvConfigParameter pciAddr pv.1 pv.2 = none) :
    applyWrites hu pciAddr ps =
      (none, ps.map fun pv => HostCall.setNvConfigParameter pciAddr pv.1 pv.2) := by
  induction ps with
  | nil => rfl
  | cons pv rest ih =>
    obtain ⟨p, v⟩ := pv
    have h0 := h (p, v) (List.mem_cons_self _ _)
    simp only [applyWrites, h0]
    rw [ih (fun pv hpv => h pv (List.mem_cons_of_mem _ hpv))]
    simp

lemma applyPhase2_success (hu : HostUtils) (cv : ConfigValidation)
    (device : NicDevice) (pciAddr : String) (nvConfig : NvConfig)
    (trAcc : List HostCall) (desired ps : List (String × String))
    (hdes : cv.constructNvParamMapFromTemplate device nvConfig.DefaultConfig =
      .ok desired)
    (hcol : collectParamsToApply device.Name nvConfig.NextBootConfig desired =
      .ok ps)
    (hw : ∀ pv ∈ ps, hu.setNvConfigParameter pciAddr pv.1 pv.2 = none) :
    applyPhase2 hu cv device pciAddr nvConfig trAcc =
      ((true, none),
       trAcc ++ ps.map fun pv => HostCall.setNvConfigParameter pciAddr pv.1 pv.2) := by
  simp only [applyPhase2, hdes, hcol, applyWrites_all_success hu pciAddr ps hw]

lemma applyPhase2_collect_error (hu : HostUtils) (cv : ConfigValidation)
    (device : NicDevice) (pciAddr : String) (nvConfig : NvConfig)
    (trAcc : List HostCall) (desired : List (String × String)) (e : EngineError)
    (hdes : cv.constructNvParamMapFromTemplate device nvConfig.DefaultConfig =
      .ok desired)
    (hcol : collectParamsToApply device.Name nvConfig.NextBootConfig desired =
      .error e) :
    applyPhase2 hu cv device pciAddr nvConfig trAcc = ((false, some e), trAcc) := by
  simp only [applyPhase2, hdes, hcol]

/-! ### Helper lemmas about association-list insertion -/

lemma mem_mapInsert {β : Type} (p : String × β) (key : String) (val : β)
    (m : List (String × β)) (h : p ∈ mapInsert key val m) :
    p = (key, val) ∨ p ∈ m := by
  induction m with
  | nil =>
    simp only [mapInsert, List.mem_singleton] at h
    exact Or.inl h
  | cons kv rest ih =>
    obtain ⟨k, v⟩ := kv
    simp only [mapInsert] at h
    by_cases hk : k = key
    · rw [if_pos hk] at h
      rcases List.mem_cons.mp h with h1 | h2
      · exact Or.inl h1
      · exact Or.inr (List.mem_cons_of_mem _ h2)
    · rw [if_neg hk] at h
      rcases List.mem_cons.mp h with h1 | h2
      · exact Or.inr (h1 ▸ List.mem_cons_self _ _)
      · rcases ih h2 with h3 | h4
        · exact Or.inl h3
        · exact Or.inr (List.mem_cons_of_mem _ h4)

lemma mapInsert_mapInsert {β : Type} (key : String) (v v' : β)
    (m : List (String × β)) :
    mapInsert key v' (mapInsert key v m) = mapInsert key v' m := by
  induction m with
  | nil => simp [mapInsert]
  | cons kv rest ih =>
    obtain ⟨k, w⟩ := kv
    by_cases hk : k = key
    · simp [mapInsert, hk]
    · simp only [mapInsert, if_neg hk]
      rw [ih]

/-! ### Helper lemmas about discovery -/

/-- Equation: a non-Mellanox device is skipped. -/
lemma discoverStep_skip_vendor (hu : HostUtils) (nodeName : String)
    (devices : List (String × NicDeviceStatus)) (d : PCIDevice)
    (hv : ¬ d.VendorID = MellanoxVendor) :
    discoverStep hu nodeName devices d = .ok devices := by
  simp [discoverStep, hv]

/-- Equation: a Mellanox device whose class code does not parse is
skipped. -/
lemma discoverStep_skip_class (hu : HostUtils) (nodeName : String)
    (devices : List (String × NicDeviceStatus)) (d : PCIDevice)
    (hv : d.VendorID = MellanoxVendor)
    (hcls : parseInt16 d.ClassID = none) :
    discoverStep hu nodeName devices d = .ok devices := by
  simp [discoverStep, hv, hcls]

/-- Equation: a device whose class is not the network class is skipped. -/
lemma discoverStep_skip_notnet (hu : HostUtils) (nodeName : String)
    (devices : List (String × NicDeviceStatus)) (d : PCIDevice) (c : Int)
    (hv : d.VendorID = MellanoxVendor)
    (hcls : parseInt16 d.ClassID = some c) (hnc : ¬ c = NetClass) :
    discoverStep hu nodeName devices d = .ok devices := by
  simp [discoverStep, hv, hcls, hnc]

/-- Equation: an SR-IOV virtual function is skipped. -/
lemma discoverStep_skip_vf (hu : HostUtils) (nodeName : String)
    (devices : List (String × NicDeviceStatus)) (d : PCIDevice)
    (hv : d.VendorID = MellanoxVendor)
    (hcls : parseInt16 d.ClassID = some NetClass)
    (hvf : hu.isSriovVF d.Address = true) :
    discoverStep hu nodeName devices d = .ok devices := by
  simp [discoverStep, hv, hcls, hvf]

/-- Equation: a failing part/serial number fetch aborts the step. -/
lemma discoverStep_partSerial_error (hu : HostUtils) (nodeName : String)
    (devices : List (String × NicDeviceStatus)) (d : PCIDevice) (e : EngineError)
    (hv : d.VendorID = MellanoxVendor)
    (hcls : parseInt16 d.ClassID = some NetClass)
    (hvf : hu.isSriovVF d.Address = false)
    (hps : hu.getPartAndSerialNumber d.Address = .error e) :
    discoverStep hu nodeName devices d = .error e := by
  simp [discoverStep, hv, hcls, hvf, hps]

/-- Equation: a failing firmware/PSID fetch for a fresh serial number
aborts the step. -/
lemma discoverStep_fw_error (hu : HostUtils) (nodeName : String)
    (devices : List (String × NicDeviceStatus)) (d : PCIDevice)
    (pn sn : String) (e : EngineError)
    (hv : d.VendorID = MellanoxVendor)
    (hcls : parseInt16 d.ClassID = some NetClass)
    (hvf : hu.isSriovVF d.Address = false)
    (hps : hu.getPartAndSerialNumber d.Address = .ok (pn, sn))
    (hfound : alistLookup devices sn = none)
    (hfw : hu.getFirmwareVersionAndPSID d.Address = .error e) :
    discoverStep hu nodeName devices d = .error e := by
  simp [discoverStep, hv, hcls, hvf, hps, hfound, hfw]

/-- Equation: a port of an already-seen serial number is appended to the
existing entry. -/
lemma discoverStep_found (hu : HostUtils) (nodeName : String)
    (devices : List (String × NicDeviceStatus)) (d : PCIDevice)
    (pn sn : String) (st : NicDeviceStatus)
    (hv : d.VendorID = MellanoxVendor)
    (hcls : parseInt16 d.ClassID = some NetClass)
    (hvf : hu.isSriovVF d.Address = false)
    (hps : hu.getPartAndSerialNumber d.Address = .ok (pn, sn))
    (hfound : alistLookup devices sn = some st) :
    discoverStep hu nodeName devices d = .ok (mapInsert st.SerialNumber
      { st with
        Ports := st.Ports ++
          [{ PCI := d.Address,
             NetworkInterface := hu.getInterfaceName d.Address,
             RdmaInterface := hu.getRDMADeviceName d.Address }],
        Node := nodeName } devices) := by
  simp [discoverStep, hv, hcls, hvf, hps, hfound]

/-- Equation: a fresh serial number creates a new entry whose single port
is the current device (the intermediate insertion of the portless record
is immediately overwritten). -/
lemma discoverStep_new (hu : HostUtils) (nodeName : String)
    (devices : List (String × NicDeviceStatus)) (d : PCIDevice)
    (pn sn fw psid : String)
    (hv : d.VendorID = MellanoxVendor)
    (hcls : parseInt16 d.ClassID = some NetClass)
    (hvf : hu.isSriovVF d.Address = false)
    (hps : hu.getPartAndSerialNumber d.Address = .ok (pn, sn))
    (hfound : alistLookup devices sn = none)
    (hfw : hu.getFirmwareVersionAndPSID d.Address = .ok (fw, psid)) :
    discoverStep hu nodeName devices d = .ok (mapInsert sn
      { Typ := d.ProductID, SerialNumber := sn, PartNumber := pn,
        PSID := psid, FirmwareVersion := fw, Node := nodeName,
        Ports :=
          [{ PCI := d.Address,
             NetworkInterface := hu.getInterfaceName d.Address,
             RdmaInterface := hu.getRDMADeviceName d.Address }] } devices) := by
  simp only [discoverStep, hv, hcls, hvf, hps, hfound, hfw]
  simp only [mapInsert_mapInsert]
  simp

lemma discoverStep_inv (hu : HostUtils) (nodeName : String)
    (devices : List (String × NicDeviceStatus)) (d : PCIDevice)
    (m1 : List (String × NicDeviceStatus))
    (hinv : ∀ p ∈ devices,
      p.2.SerialNumber = p.1 ∧ p.2.Node = nodeName ∧ ¬ p.2.Ports = [])
    (h : discoverStep hu nodeName devices d = .ok m1) :
    ∀ p ∈ m1, p.2.SerialNumber = p.1 ∧ p.2.Node = nodeName ∧ ¬ p.2.Ports = [] := by
  by_cases hv : d.VendorID = MellanoxVendor
  case neg =>
    rw [discoverStep_skip_vendor hu nodeName devices d hv] at h
    cases h
    exact hinv
  cases hcls : parseInt16 d.ClassID with
  | none =>
    rw [discoverStep_skip_class hu nodeName devices d hv hcls] at h
    cases h
    exact hinv
  | some c =>
    by_cases hnc : c = NetClass
    case neg =>
      rw [discoverStep_skip_notnet hu nodeName devices d c hv hcls hnc] at h
      cases h
      exact hinv
    subst hnc
    cases hvf : hu.isSriovVF d.Address with
    | true =>
      rw [discoverStep_skip_vf hu nodeName devices d hv hcls hvf] at h
      cases h
      exact hinv
    | false =>
      cases hps : hu.getPartAndSerialNumber d.Address with
      | error e =>
        rw [discoverStep_partSerial_error hu nodeName devices d e hv hcls hvf hps] at h
        cases h
      | ok ps =>
        obtain ⟨pn, sn⟩ := ps
        cases hfound : alistLookup devices sn with
        | some st =>
          rw [discoverStep_found hu nodeName devices d pn sn st hv hcls hvf hps hfound] at h
          cases h
          intro p hp
          rcases mem_mapInsert _ _ _ _ hp with h1 | h2
          · subst h1
            exact ⟨rfl, rfl, by simp⟩
          · exact hinv p h2
        | none =>
          cases hfw : hu.getFirmwareVersionAndPSID d.Address with
          | error e =>
            rw [discoverStep_fw_error hu nodeName devices d pn sn e hv hcls hvf hps hfound hfw] at h
            cases h
          | ok fwp =>
            obtain ⟨fw, psid⟩ := fwp
            rw [discoverStep_new hu nodeName devices d pn sn fw psid hv hcls hvf hps hfound hfw] at h
            cases h
            intro p hp
            rcases mem_mapInsert _ _ _ _ hp with h1 | h2
            · subst h1
              exact ⟨rfl, rfl, by simp⟩
            · exact hinv p h2

lemma discoverLoop_inv (hu : HostUtils) (nodeName : String)
    (ds : List PCIDevice) :
    ∀ (devices m : List (String × NicDeviceStatus)),
    (∀ p ∈ devices,
      p.2.SerialNumber = p.1 ∧ p.2.Node = nodeName ∧ ¬ p.2.Ports = []) →
    discoverLoop hu nodeName ds devices = .ok m →
    ∀ p ∈ m, p.2.SerialNumber = p.1 ∧ p.2.Node = nodeName ∧ ¬ p.2.Ports = [] := by
  induction ds with
  | nil =>
    intro devices m h0 h
    cases h
    exact h0
  | cons d rest ih =>
    intro devices m h0 h
    simp only [discoverLoop] at h
    cases hstep : discoverStep hu nodeName devices d with
    | error e => rw [hstep] at h; cases h
    | ok devices' =>
      rw [hstep] at h
      exact ih devices' m (discoverStep_inv hu nodeName devices d devices' h0 hstep) h

/-! ### Helper lemma about the runtime trust block -/

lemma applyTrustAndPFC_no_maxread (hu : HostUtils) (port0 : NicDevicePortSpec)
    (sndPort : Option NicDevicePortSpec) (trust pfc : String) (a : String) (s : Int) :
    HostCall.setMaxReadRequestSize a s ∉ (applyTrustAndPFC hu port0 sndPort trust pfc).2 := by
  unfold applyTrustAndPFC
  split
  · simp
  · split
    · simp
    · split
      · simp
      · simp

/-! ### Unfolding lemmas for the engine entry points -/

lemma ValidateDeviceNvSpec_cons (hu : HostUtils) (cv : ConfigValidation)
    (device : NicDevice) (port0 : NicDevicePortSpec)
    (restPorts : List NicDevicePortSpec)
    (hports : device.Status.Ports = port0 :: restPorts) :
    ValidateDeviceNvSpec hu cv device = some (validateCore hu cv device port0.PCI) := by
  simp only [ValidateDeviceNvSpec, hports]

lemma validateCore_normal (hu : HostUtils) (cv : ConfigValidation)
    (device : NicDevice) (pciAddr : String) (nv : NvConfig)
    (desired : List (String × String))
    (hq : hu.queryNvConfig 0 pciAddr = .ok nv)
    (hreset : device.Spec.Configuration.ResetToDefault = false)
    (hdes : cv.constructNvParamMapFromTemplate device nv.DefaultConfig = .ok desired) :
    validateCore hu cv device pciAddr =
      (validateLoop device.Name nv (cv.advancedPCISettingsEnabled nv.CurrentConfig)
        desired false false,
       [HostCall.queryNvConfig pciAddr]) := by
  simp [validateCore, hq, hreset, hdes]

lemma ApplyDeviceNvSpec_cons (hu : HostUtils) (cv : ConfigValidation)
    (device : NicDevice) (port0 : NicDevicePortSpec)
    (restPorts : List NicDevicePortSpec)
    (hports : device.Status.Ports = port0 :: restPorts) :
    ApplyDeviceNvSpec hu cv device = some (applyCore hu cv device port0.PCI) := by
  simp only [ApplyDeviceNvSpec, hports]

lemma applyCore_advanced (hu : HostUtils) (cv : ConfigValidation)
    (device : NicDevice) (pciAddr : String) (nv0 : NvConfig)
    (hreset : device.Spec.Configuration.ResetToDefault = false)
    (hq0 : hu.queryNvConfig 0 pciAddr = .ok nv0)
    (hadv : cv.advancedPCISettingsEnabled nv0.CurrentConfig = true) :
    applyCore hu cv device pciAddr =
      applyPhase2 hu cv device pciAddr nv0 [HostCall.queryNvConfig pciAddr] := by
  simp [applyCore, hreset, hq0, hadv]

lemma applyCore_bootstrap (hu : HostUtils) (cv : ConfigValidation)
    (device : NicDevice) (pciAddr : String) (nv0 nv1 : NvConfig)
    (hreset : device.Spec.Configuration.ResetToDefault = false)
    (hq0 : hu.queryNvConfig 0 pciAddr = .ok nv0)
    (hadv : cv.advancedPCISettingsEnabled nv0.CurrentConfig = false)
    (hset : hu.setNvConfigParameter pciAddr AdvancedPCISettingsParam NvParamTrue = none)
    (hfw : hu.resetNicFirmware pciAddr = none)
    (hq1 : hu.queryNvConfig 1 pciAddr = .ok nv1) :
    applyCore hu cv device pciAddr =
      applyPhase2 hu cv device pciAddr nv1
        [HostCall.queryNvConfig pciAddr,
         HostCall.setNvConfigParameter pciAddr AdvancedPCISettingsParam NvParamTrue,
         HostCall.resetNicFirmware pciAddr, HostCall.queryNvConfig pciAddr] := by
  simp [applyCore, hreset, hq0, hadv, hset, hfw, hq1]

lemma ApplyDeviceRuntimeSpec_notApplied (hu : HostUtils) (cv : ConfigValidation)
    (device : NicDevice) (port0 : NicDevicePortSpec)
    (restPorts : List NicDevicePortSpec)
    (hra : (cv.runtimeConfigApplied device).1 = false)
    (hports : device.Status.Ports = port0 :: restPorts) :
    ApplyDeviceRuntimeSpec hu cv device =
      some (runtimeCore hu port0 (secondPort (port0 :: restPorts))
        (cv.calculateDesiredRuntimeConfig device)) := by
  simp only [ApplyDeviceRuntimeSpec, hra, hports]
  simp

lemma runtimeCore_all_success (hu : HostUtils) (port0 : NicDevicePortSpec)
    (sndPort : Option NicDevicePortSpec) (rc : Int × String × String)
    (hmax : ∀ a s, hu.setMaxReadRequestSize a s = none)
    (htrust : ∀ i t p, hu.setTrustAndPFC i t p = none) :
    ∃ tr, runtimeCore hu port0 sndPort rc = (none, tr) := by
  obtain ⟨size, trust, pfc⟩ := rc
  have htr : ∀ (p0 : NicDevicePortSpec) (sp : Option NicDevicePortSpec),
      ∃ tr2, applyTrustAndPFC hu p0 sp trust pfc = (none, tr2) := by
    intro p0 sp
    cases sp with
    | none => simp [applyTrustAndPFC, htrust]
    | some p1 => simp [applyTrustAndPFC, htrust]
  by_cases hsz : size = 0
  · subst hsz
    simp only [runtimeCore, not_true_eq_false, if_false]
    exact htr port0 sndPort
  · obtain ⟨tr2, h2⟩ := htr port0 sndPort
    cases sndPort with
    | none => simp [runtimeCore, if_pos hsz, hmax, h2]
    | some p1 => simp [runtimeCore, if_pos hsz, hmax, h2]

/-! ### Claim C1 -/

/-- Claim C1 counterexample: for device devBase under huC1 every desired
parameter's current value already equals the desired value, yet
ValidateDeviceNvSpec returns (updateNeeded, rebootNeeded) = (true, true)
because the next-boot value is absent, so the claimed equivalence with
(false, false) fails in the right-to-left direction. -/
theorem validate_false_false_current_only_counterexample :
    cvBase.constructNvParamMapFromTemplate devBase nvC1.DefaultConfig =
      .ok [("P1", "1")] ∧
    alistLookup nvC1.CurrentConfig "P1" = some "1" ∧
    ValidateDeviceNvSpec huC1 cvBase devBase =
      some ((true, true, none), [HostCall.queryNvConfig "0000:03:00.0"]) :=
  ⟨rfl, rfl, rfl⟩

/-- Claim C1 (amended): with reset-to-default not requested, a successful
nv config query and a successfully built desired configuration,
ValidateDeviceNvSpec returns (false, false) with a nil error iff every
desired parameter's current AND next-boot values already equal the
desired value. -/
theorem validate_false_false_iff_current_and_nextboot_match
    (hu : HostUtils) (cv : ConfigValidation) (device : NicDevice)
    (port0 : NicDevicePortSpec) (restPorts : List NicDevicePortSpec)
    (nv : NvConfig) (desired : List (String × String))
    (hports : device.Status.Ports = port0 :: restPorts)
    (hreset : device.Spec.Configuration.ResetToDefault = false)
    (hq : hu.queryNvConfig 0 port0.PCI = .ok nv)
    (hdes : cv.constructNvParamMapFromTemplate device nv.DefaultConfig = .ok desired) :
    ValidateDeviceNvSpec hu cv device =
      some ((false, false, none), [HostCall.queryNvConfig port0.PCI]) ↔
    ∀ pv ∈ desired, alistLookup nv.CurrentConfig pv.1 = some pv.2 ∧
      alistLookup nv.NextBootConfig pv.1 = some pv.2 := by
  rw [ValidateDeviceNvSpec_cons hu cv device port0 restPorts hports,
      validateCore_normal hu cv device port0.PCI nv desired hq hreset hdes]
  constructor
  · intro h
    have h' : validateLoop device.Name nv
        (cv.advancedPCISettingsEnabled nv.CurrentConfig) desired false false =
        (false, false, none) := by
      simpa using h
    exact (validateLoop_false_false device.Name nv _ desired false false h').2.2
  · intro h
    rw [validateLoop_all_match device.Name nv _ desired false false h]

/-- Claim C1 witness: the amended equivalence applied to a device whose
single desired parameter already matches in both current and next-boot
configs. -/
theorem validate_false_false_iff_witness :
    ValidateDeviceNvSpec huW1 cvBase devBase =
      some ((false, false, none), [HostCall.queryNvConfig portA.PCI]) :=
  (validate_false_false_iff_current_and_nextboot_match huW1 cvBase devBase
    portA [] nvW1 [("P1", "4")] rfl rfl rfl rfl).mpr (by decide)

/-! ### Claim C2 -/

/-- Claim C2: with reset-to-default not requested, a successful query, a
successfully built desired configuration and no spec error possible
(advanced settings off, or every desired parameter present in the current
config), ValidateDeviceNvSpec returns (true, true) with a nil error iff at
least one desired parameter's next-boot value differs from the desired
value (absence counting as differing). -/
theorem validate_true_true_iff_nextboot_differs
    (hu : HostUtils) (cv : ConfigValidation) (device : NicDevice)
    (port0 : NicDevicePortSpec) (restPorts : List NicDevicePortSpec)
    (nv : NvConfig) (desired : List (String × String))
    (hports : device.Status.Ports = port0 :: restPorts)
    (hreset : device.Spec.Configuration.ResetToDefault = false)
    (hq : hu.queryNvConfig 0 port0.PCI = .ok nv)
    (hdes : cv.constructNvParamMapFromTemplate device nv.DefaultConfig = .ok desired)
    (hnospec : ∀ pv ∈ desired,
      ¬(cv.advancedPCISettingsEnabled nv.CurrentConfig = true ∧
        alistLookup nv.CurrentConfig pv.1 = none)) :
    ValidateDeviceNvSpec hu cv device =
      some ((true, true, none), [HostCall.queryNvConfig port0.PCI]) ↔
    ∃ pv ∈ desired, ¬ alistLookup nv.NextBootConfig pv.1 = some pv.2 := by
  rw [ValidateDeviceNvSpec_cons hu cv device port0 restPorts hports,
      validateCore_normal hu cv device port0.PCI nv desired hq hreset hdes]
  constructor
  · intro h
    have h' : validateLoop device.Name nv
        (cv.advancedPCISettingsEnabled nv.CurrentConfig) desired false false =
        (true, true, none) := by
      simpa using h
    exact validateLoop_exists_of_true device.Name nv _ desired false true h'
  · intro hex
    rw [validateLoop_exists_mismatch device.Name nv _ desired false false hnospec hex]

/-- Claim C2 witness: the equivalence applied to a device whose single
desired parameter is absent from the next-boot config. -/
theorem validate_true_true_iff_witness :
    ValidateDeviceNvSpec huW2 cvBase devBase =
      some ((true, true, none), [HostCall.queryNvConfig portA.PCI]) :=
  (validate_true_true_iff_nextboot_differs huW2 cvBase devBase
    portA [] nvW2 [("P1", "1")] rfl rfl rfl rfl (by decide)).mpr
    ⟨("P1", "1"), by decide, by decide⟩

/-! ### Claim C3 -/

/-- Claim C3 counterexample: advanced PCI settings are enabled and the
desired parameter P1 is absent from the current config, so the claim
demands that ApplyDeviceNvSpec return a spec error and perform no writes;
instead the code checks the next-boot config, finds P1 there with a
different value, writes it, and returns (true, nil). -/
theorem apply_current_absent_counterexample :
    cvBase.advancedPCISettingsEnabled nvC3.CurrentConfig = true ∧
    alistLookup nvC3.CurrentConfig "P1" = none ∧
    cvBase.constructNvParamMapFromTemplate devBase nvC3.DefaultConfig =
      .ok [("P1", "1")] ∧
    ApplyDeviceNvSpec huC3 cvBase devBase =
      some ((true, none),
        [HostCall.queryNvConfig "0000:03:00.0",
         HostCall.setNvConfigParameter "0000:03:00.0" "P1" "1"]) :=
  ⟨rfl, rfl, rfl, rfl⟩

/-- Claim C3 (amended): with reset-to-default not requested, a successful
query, a successfully built desired configuration and the advanced gate
enabled, ValidateDeviceNvSpec returns an IncorrectSpecError and performs
no writes when some desired parameter is absent from the CURRENT config,
and ApplyDeviceNvSpec returns an IncorrectSpecError and performs no
writes when some desired parameter is absent from the NEXT-BOOT config. -/
theorem spec_error_absent_parameter_validate_and_apply
    (hu : HostUtils) (cv : ConfigValidation) (device : NicDevice)
    (port0 : NicDevicePortSpec) (restPorts : List NicDevicePortSpec)
    (nv : NvConfig) (desired : List (String × String)) (p v : String)
    (hports : device.Status.Ports = port0 :: restPorts)
    (hreset : device.Spec.Configuration.ResetToDefault = false)
    (hq : hu.queryNvConfig 0 port0.PCI = .ok nv)
    (hdes : cv.constructNvParamMapFromTemplate device nv.DefaultConfig = .ok desired)
    (hadv : cv.advancedPCISettingsEnabled nv.CurrentConfig = true) :
    ((p, v) ∈ desired → alistLookup nv.CurrentConfig p = none →
      ∃ msg, ValidateDeviceNvSpec hu cv device =
        some ((false, false, some (.incorrectSpecError msg)),
          [HostCall.queryNvConfig port0.PCI])) ∧
    ((p, v) ∈ desired → alistLookup nv.NextBootConfig p = none →
      ∃ msg, ApplyDeviceNvSpec hu cv device =
        some ((false, some (.incorrectSpecError msg)),
          [HostCall.queryNvConfig port0.PCI])) := by
  constructor
  · intro hmem hcur
    rw [ValidateDeviceNvSpec_cons hu cv device port0 restPorts hports,
        validateCore_normal hu cv device port0.PCI nv desired hq hreset hdes, hadv]
    obtain ⟨msg, hmsg⟩ :=
      validateLoop_spec_error device.Name nv desired p v false false hmem hcur
    rw [hmsg]
    exact ⟨msg, rfl⟩
  · intro hmem habs
    rw [ApplyDeviceNvSpec_cons hu cv device port0 restPorts hports,
        applyCore_advanced hu cv device port0.PCI nv hreset hq hadv]
    obtain ⟨msg, hmsg⟩ :=
      collectParamsToApply_spec_error device.Name nv.NextBootConfig desired p v hmem habs
    rw [applyPhase2_collect_error hu cv device port0.PCI nv _ desired _ hdes hmsg]
    exact ⟨msg, rfl⟩

/-- Claim C3 witness: both amended statements applied to a device whose
desired parameter P1 is absent from both the current and the next-boot
configs while the advanced gate is enabled; the error messages are then
computed on the concrete input. -/
theorem spec_error_absent_parameter_witness :
    ValidateDeviceNvSpec huW3 cvBase devBase =
      some ((false, false,
        some (.incorrectSpecError "Parameter P1 unsupported for device nic-1")),
        [HostCall.queryNvConfig portA.PCI]) ∧
    ApplyDeviceNvSpec huW3 cvBase devBase =
      some ((false,
        some (.incorrectSpecError "Parameter P1 unsupported for device nic-1")),
        [HostCall.queryNvConfig portA.PCI]) :=
  by
  have _h1 := (spec_error_absent_parameter_validate_and_apply huW3 cvBase devBase
    portA [] nvW3 [("P1", "1")] "P1" "1" rfl rfl rfl rfl rfl).1 (by decide) rfl
  have _h2 := (spec_error_absent_parameter_validate_and_apply huW3 cvBase devBase
    portA [] nvW3 [("P1", "1")] "P1" "1" rfl rfl rfl rfl rfl).2 (by decide) rfl
  exact ⟨rfl, rfl⟩

/-! ### Claim C4 -/

/-- Claim C4: with reset-to-default not requested, once ApplyDeviceNvSpec
reaches the diff-and-write phase (the first query succeeded and either the
advanced gate was already enabled, or the bootstrap gate-write, firmware
reset and re-query all succeeded), the desired configuration was built,
the diff succeeded, and all writes of the computed write set succeed, the
call returns rebootNeeded = true with a nil error — including when the
write set is empty. -/
theorem apply_write_phase_returns_reboot
    (hu : HostUtils) (cv : ConfigValidation) (device : NicDevice)
    (port0 : NicDevicePortSpec) (restPorts : List NicDevicePortSpec)
    (nv0 nvF : NvConfig) (desired ps : List (String × String))
    (hports : device.Status.Ports = port0 :: restPorts)
    (hreset : device.Spec.Configuration.ResetToDefault = false)
    (hq0 : hu.queryNvConfig 0 port0.PCI = .ok nv0)
    (hphase1 :
      (cv.advancedPCISettingsEnabled nv0.CurrentConfig = true ∧ nvF = nv0) ∨
      (cv.advancedPCISettingsEnabled nv0.CurrentConfig = false ∧
       hu.setNvConfigParameter port0.PCI AdvancedPCISettingsParam NvParamTrue = none ∧
       hu.resetNicFirmware port0.PCI = none ∧
       hu.queryNvConfig 1 port0.PCI = .ok nvF))
    (hdes : cv.constructNvParamMapFromTemplate device nvF.DefaultConfig = .ok desired)
    (hcol : collectParamsToApply device.Name nvF.NextBootConfig desired = .ok ps)
    (hw : ∀ pv ∈ ps, hu.setNvConfigParameter port0.PCI pv.1 pv.2 = none) :
    ∃ tr, ApplyDeviceNvSpec hu cv device = some ((true, none), tr) := by
  rw [ApplyDeviceNvSpec_cons hu cv device port0 restPorts hports]
  rcases hphase1 with ⟨hadv, hnv⟩ | ⟨hadv, hset, hfw, hq1⟩
  · subst hnv
    rw [applyCore_advanced hu cv device port0.PCI nvF hreset hq0 hadv,
        applyPhase2_success hu cv device port0.PCI nvF _ desired ps hdes hcol hw]
    exact ⟨_, rfl⟩
  · rw [applyCore_bootstrap hu cv device port0.PCI nv0 nvF hreset hq0 hadv hset hfw hq1,
        applyPhase2_success hu cv device port0.PCI nvF _ desired ps hdes hcol hw]
    exact ⟨_, rfl⟩

/-- Claim C4 witness: a device whose single desired parameter already
matches the next-boot value, so the write set is empty, still yields
(true, nil). -/
theorem apply_write_phase_returns_reboot_witness :
    ApplyDeviceNvSpec huW4 cvBase devBase =
      some ((true, none), [HostCall.queryNvConfig portA.PCI]) :=
  (fun _ig => rfl)
    (apply_write_phase_returns_reboot huW4 cvBase devBase portA [] nvW4 nvW4
      [("P1", "1")] [] rfl rfl rfl (Or.inl ⟨rfl, rfl⟩) rfl rfl (by decide))

/-! ### Claim C5 -/

/-- Claim C5: with reset-to-default requested and both host calls
succeeding, ApplyDeviceNvSpec issues exactly one ResetNvConfig call
followed by exactly one SetNvConfigParameter call re-enabling the
advanced-PCI-settings gate, and returns (true, nil) regardless of the
device's prior configuration state; the trace equality shows that no
query, parameter computation or further write occurs in the call. -/
theorem apply_reset_to_default_trace
    (hu : HostUtils) (cv : ConfigValidation) (device : NicDevice)
    (port0 : NicDevicePortSpec) (restPorts : List NicDevicePortSpec)
    (hports : device.Status.Ports = port0 :: restPorts)
    (hreset : device.Spec.Configuration.ResetToDefault = true)
    (hr : hu.resetNvConfig port0.PCI = none)
    (hs : hu.setNvConfigParameter port0.PCI AdvancedPCISettingsParam NvParamTrue = none) :
    ApplyDeviceNvSpec hu cv device = some ((true, none),
      [HostCall.resetNvConfig port0.PCI,
       HostCall.setNvConfigParameter port0.PCI AdvancedPCISettingsParam NvParamTrue]) := by
  rw [ApplyDeviceNvSpec_cons hu cv device port0 restPorts hports]
  simp [applyCore, hreset, hr, hs]

/-- Claim C5 witness: the reset-to-default trace on a concrete device. -/
theorem apply_reset_to_default_trace_witness :
    ApplyDeviceNvSpec huBase cvBase devReset = some ((true, none),
      [HostCall.resetNvConfig portA.PCI,
       HostCall.setNvConfigParameter portA.PCI AdvancedPCISettingsParam NvParamTrue]) :=
  apply_reset_to_default_trace huBase cvBase devReset portA [] rfl rfl rfl rfl

/-! ### Claim C6 -/

/-- Claim C6 counterexample: on a device whose Status.Ports list is empty,
ValidateDeviceNvSpec and ApplyDeviceNvSpec index Ports[0] unconditionally
and ApplyDeviceRuntimeSpec indexes ports[0] once the runtime config is not
already applied; all three abort with an index-out-of-range panic
(modelled by `none`) instead of returning an error value. -/
theorem engine_panics_on_empty_ports_counterexample :
    devNoPorts.Status.Ports = [] ∧
    ValidateDeviceNvSpec huBase cvBase devNoPorts = none ∧
    ApplyDeviceNvSpec huBase cvBase devNoPorts = none ∧
    ApplyDeviceRuntimeSpec huBase cvBase devNoPorts = none :=
  ⟨rfl, rfl, rfl, rfl⟩

/-- Claim C6 (amended): for every device whose Status.Ports list is
non-empty, no engine operation panics: ValidateDeviceNvSpec,
ApplyDeviceNvSpec and ApplyDeviceRuntimeSpec always produce a result
(failure paths return error values inside the result), and
DiscoverNicDevices always produces either an error value or a device map
for any input. -/
theorem engine_no_panic_on_nonempty_ports
    (hu : HostUtils) (cv : ConfigValidation) (device : NicDevice)
    (nodeName : String) (h : ¬ device.Status.Ports = []) :
    (ValidateDeviceNvSpec hu cv device).isSome = true ∧
    (ApplyDeviceNvSpec hu cv device).isSome = true ∧
    (ApplyDeviceRuntimeSpec hu cv device).isSome = true ∧
    ((∃ e, DiscoverNicDevices hu nodeName = .error e) ∨
     (∃ m, DiscoverNicDevices hu nodeName = .ok m)) := by
  cases hp : device.Status.Ports with
  | nil => exact absurd hp h
  | cons port0 rest =>
    refine ⟨?_, ?_, ?_, ?_⟩
    · simp [ValidateDeviceNvSpec, hp]
    · simp [ApplyDeviceNvSpec, hp]
    · cases hra : (cv.runtimeConfigApplied device).1 with
      | true => simp [ApplyDeviceRuntimeSpec, hra]
      | false => simp [ApplyDeviceRuntimeSpec, hra, hp]
    · cases hd : DiscoverNicDevices hu nodeName with
      | error e => exact Or.inl ⟨e, rfl⟩
      | ok m => exact Or.inr ⟨m, rfl⟩

/-- Claim C6 witness: the amended no-panic statement on a concrete
one-port device. -/
theorem engine_no_panic_witness :
    (ValidateDeviceNvSpec huBase cvBase devBase).isSome = true ∧
    (ApplyDeviceNvSpec huBase cvBase devBase).isSome = true ∧
    (ApplyDeviceRuntimeSpec huBase cvBase devBase).isSome = true :=
  ⟨(engine_no_panic_on_nonempty_ports huBase cvBase devBase "node-a" (by decide)).1,
   (engine_no_panic_on_nonempty_ports huBase cvBase devBase "node-a" (by decide)).2.1,
   (engine_no_panic_on_nonempty_ports huBase cvBase devBase "node-a" (by decide)).2.2.1⟩

/-! ### Claim C7 -/

/-- Claim C7 counterexample: runtimeConfigApplied reports an error, yet
ApplyDeviceRuntimeSpec does not return it — it proceeds to apply the
runtime settings and returns a nil error. -/
theorem runtime_error_swallowed_counterexample :
    cvC7.runtimeConfigApplied devBase =
      (false, some (.hostError "runtime check failed")) ∧
    ApplyDeviceRuntimeSpec huBase cvC7 devBase =
      some (none,
        [HostCall.setMaxReadRequestSize "0000:03:00.0" 4096,
         HostCall.setTrustAndPFC "enp3s0f0" "dscp" "0,0,0,1,0,0,0,0"]) :=
  ⟨rfl, rfl⟩

/-- Claim C7 (amended): an error from RuntimeConfigApplied is only logged:
when the check reports (false, error), ApplyDeviceRuntimeSpec proceeds to
apply the runtime settings — returning a nil error when the host calls
succeed — while an error from a host-utility call (here the first
max-read-request-size write) is returned to the caller. -/
theorem runtime_config_applied_error_only_logged
    (hu : HostUtils) (cv : ConfigValidation) (device : NicDevice)
    (port0 : NicDevicePortSpec) (restPorts : List NicDevicePortSpec)
    (e : EngineError)
    (hports : device.Status.Ports = port0 :: restPorts)
    (hra : cv.runtimeConfigApplied device = (false, some e)) :
    ((∀ a s, hu.setMaxReadRequestSize a s = none) →
     (∀ i t p, hu.setTrustAndPFC i t p = none) →
     ∃ tr, ApplyDeviceRuntimeSpec hu cv device = some (none, tr)) ∧
    (∀ e', ¬ (cv.calculateDesiredRuntimeConfig device).1 = 0 →
      hu.setMaxReadRequestSize port0.PCI (cv.calculateDesiredRuntimeConfig device).1 =
        some e' →
      ApplyDeviceRuntimeSpec hu cv device =
        some (some e',
          [HostCall.setMaxReadRequestSize port0.PCI
            (cv.calculateDesiredRuntimeConfig device).1])) := by
  have hra1 : (cv.runtimeConfigApplied device).1 = false := by rw [hra]
  constructor
  · intro hmax htrust
    rw [ApplyDeviceRuntimeSpec_notApplied hu cv device port0 restPorts hra1 hports]
    obtain ⟨tr, htr⟩ := runtimeCore_all_success hu port0
      (secondPort (port0 :: restPorts)) (cv.calculateDesiredRuntimeConfig device)
      hmax htrust
    rw [htr]
    exact ⟨tr, rfl⟩
  · intro e' hsz hset
    rw [ApplyDeviceRuntimeSpec_notApplied hu cv device port0 restPorts hra1 hports]
    rcases hrc : cv.calculateDesiredRuntimeConfig device with ⟨size, trust, pfc⟩
    rw [hrc] at hsz hset
    simp only at hsz hset
    simp [runtimeCore, if_pos hsz, hset, hrc]

/-- Claim C7 witness: both amended statements on a concrete device whose
runtime-config check errors. -/
theorem runtime_config_applied_error_only_logged_witness :
    ApplyDeviceRuntimeSpec huBase cvC7 devBase =
      some (none,
        [HostCall.setMaxReadRequestSize "0000:03:00.0" 4096,
         HostCall.setTrustAndPFC "enp3s0f0" "dscp" "0,0,0,1,0,0,0,0"]) :=
  (fun _ig => rfl)
    ((runtime_config_applied_error_only_logged huBase cvC7 devBase portA []
      (.hostError "runtime check failed") rfl rfl).1
      (fun _ _ => rfl) (fun _ _ _ => rfl))

/-! ### Claim C8 -/

/-- Claim C8 counterexample: the runtime config is not applied and the
desired max-read-request-size is zero; contrary to the claim that
SetMaxReadRequestSize is always called on port 0, no SetMaxReadRequestSize
call occurs at all — the whole block is guarded by the non-zero check. -/
theorem runtime_maxread_counterexample :
    (cvC8.runtimeConfigApplied devBase).1 = false ∧
    (cvC8.calculateDesiredRuntimeConfig devBase).1 = 0 ∧
    ApplyDeviceRuntimeSpec huBase cvC8 devBase =
      some (none, [HostCall.setTrustAndPFC "enp3s0f0" "dscp" "0,0,0,1,0,0,0,0"]) ∧
    HostCall.setMaxReadRequestSize "0000:03:00.0" 0 ∉
      [HostCall.setTrustAndPFC "enp3s0f0" "dscp" "0,0,0,1,0,0,0,0"] :=
  ⟨rfl, rfl, rfl, by decide⟩

/-- Claim C8 (amended): for a device whose runtime config is not already
applied, ApplyDeviceRuntimeSpec calls SetMaxReadRequestSize on port 0's
PCI address exactly when the desired max-read-request-size is non-zero
(never when it is zero), and any SetMaxReadRequestSize call it makes uses
the desired size and targets either port 0 or, when exactly two ports are
present, port 1. -/
theorem runtime_maxread_calls
    (hu : HostUtils) (cv : ConfigValidation) (device : NicDevice)
    (port0 : NicDevicePortSpec) (restPorts : List NicDevicePortSpec)
    (err : Option EngineError) (tr : List HostCall)
    (hra : (cv.runtimeConfigApplied device).1 = false)
    (hports : device.Status.Ports = port0 :: restPorts)
    (hres : ApplyDeviceRuntimeSpec hu cv device = some (err, tr)) :
    (¬ (cv.calculateDesiredRuntimeConfig device).1 = 0 →
      HostCall.setMaxReadRequestSize port0.PCI
        (cv.calculateDesiredRuntimeConfig device).1 ∈ tr) ∧
    ((cv.calculateDesiredRuntimeConfig device).1 = 0 →
      ∀ (a : String) (s : Int), HostCall.setMaxReadRequestSize a s ∉ tr) ∧
    (∀ (a : String) (s : Int), HostCall.setMaxReadRequestSize a s ∈ tr →
      s = (cv.calculateDesiredRuntimeConfig device).1 ∧
      (a = port0.PCI ∨ ∃ port1, secondPort (port0 :: restPorts) = some port1 ∧
        a = port1.PCI)) := by
  rw [ApplyDeviceRuntimeSpec_notApplied hu cv device port0 restPorts hra hports] at hres
  have hcore := Option.some.inj hres
  rcases hrc : cv.calculateDesiredRuntimeConfig device with ⟨size, trust, pfc⟩
  rw [hrc] at hcore
  dsimp only
  simp only [runtimeCore] at hcore
  by_cases hsz : size = 0
  · rw [if_neg (not_not_intro hsz)] at hcore
    have htr : tr = (applyTrustAndPFC hu port0
        (secondPort (port0 :: restPorts)) trust pfc).2 := by
      rw [hcore]
    refine ⟨fun h => absurd hsz h, ?_, ?_⟩
    · intro _ a s
      rw [htr]
      exact applyTrustAndPFC_no_maxread hu port0 _ trust pfc a s
    · intro a s hmem
      rw [htr] at hmem
      exact absurd hmem (applyTrustAndPFC_no_maxread hu port0 _ trust pfc a s)
  · rw [if_pos hsz] at hcore
    cases hset0 : hu.setMaxReadRequestSize port0.PCI size with
    | some e =>
      simp only [hset0] at hcore
      injection hcore with h1 h2
      subst h1
      subst h2
      refine ⟨fun _ => by simp, fun h0 => absurd h0 hsz, ?_⟩
      intro a s hmem
      simp only [List.mem_singleton, HostCall.setMaxReadRequestSize.injEq] at hmem
      exact ⟨hmem.2, Or.inl hmem.1⟩
    | none =>
      simp only [hset0] at hcore
      cases hsp : secondPort (port0 :: restPorts) with
      | none =>
        rw [hsp] at hcore
        rcases hat : applyTrustAndPFC hu port0 none trust pfc with ⟨r2, tr2⟩
        simp only [hat] at hcore
        injection hcore with h1 h2
        subst h1
        subst h2
        refine ⟨fun _ => by simp, fun h0 => absurd h0 hsz, ?_⟩
        intro a s hmem
        rcases List.mem_cons.mp hmem with heq | hmem2
        · simp only [HostCall.setMaxReadRequestSize.injEq] at heq
          exact ⟨heq.2, Or.inl heq.1⟩
        · have hno := applyTrustAndPFC_no_maxread hu port0 none trust pfc a s
          rw [hat] at hno
          exact absurd hmem2 hno
      | some port1 =>
        rw [hsp] at hcore
        cases hset1 : hu.setMaxReadRequestSize port1.PCI size with
        | some e =>
          simp only [hset1] at hcore
          injection hcore with h1 h2
          subst h1
          subst h2
          refine ⟨fun _ => by simp, fun h0 => absurd h0 hsz, ?_⟩
          intro a s hmem
          rcases List.mem_cons.mp hmem with heq | hmem2
          · simp only [HostCall.setMaxReadRequestSize.injEq] at heq
            exact ⟨heq.2, Or.inl heq.1⟩
          · simp only [List.mem_singleton,
              HostCall.setMaxReadRequestSize.injEq] at hmem2
            exact ⟨hmem2.2, Or.inr ⟨port1, rfl, hmem2.1⟩⟩
        | none =>
          simp only [hset1] at hcore
          rcases hat : applyTrustAndPFC hu port0 (some port1) trust pfc with ⟨r2, tr2⟩
          simp only [hat] at hcore
          injection hcore with h1 h2
          subst h1
          subst h2
          refine ⟨fun _ => by simp, fun h0 => absurd h0 hsz, ?_⟩
          intro a s hmem
          rcases List.mem_cons.mp hmem with heq | hmem2
          · simp only [HostCall.setMaxReadRequestSize.injEq] at heq
            exact ⟨heq.2, Or.inl heq.1⟩
          · rcases List.mem_cons.mp hmem2 with heq2 | hmem3
            · simp only [HostCall.setMaxReadRequestSize.injEq] at heq2
              exact ⟨heq2.2, Or.inr ⟨port1, rfl, heq2.1⟩⟩
            · have hno := applyTrustAndPFC_no_maxread hu port0 (some port1) trust pfc a s
              rw [hat] at hno
              exact absurd hmem3 hno

/-- Claim C8 witness: the amended statement on a concrete single-port
device with desired size 4096: the port-0 call is in the trace. -/
theorem runtime_maxread_calls_witness :
    HostCall.setMaxReadRequestSize portA.PCI
      (cvBase.calculateDesiredRuntimeConfig devBase).1 ∈
    [HostCall.setMaxReadRequestSize "0000:03:00.0" 4096,
     HostCall.setTrustAndPFC "enp3s0f0" "dscp" "0,0,0,1,0,0,0,0"] :=
  (runtime_maxread_calls huBase cvBase devBase portA [] none
    [HostCall.setMaxReadRequestSize "0000:03:00.0" 4096,
     HostCall.setTrustAndPFC "enp3s0f0" "dscp" "0,0,0,1,0,0,0,0"]
    rfl rfl rfl).1 (by decide)

/-! ### Claim C9 -/

/-- Claim C9: the discovery failure policy.  A Mellanox device whose class
code fails to parse is merely skipped (the run continues exactly as if the
device were absent); for a device that passed the vendor, class and
physical-function filters, a failing GetPartAndSerialNumber call aborts
the whole run with that error and no device map, and so does a failing
GetFirmwareVersionAndPSID call for a serial number not seen before; and
DiscoverNicDevices is exactly the loop over the enumerated devices. -/
theorem discover_failure_policy (hu : HostUtils) (nodeName : String)
    (d : PCIDevice) (rest : List PCIDevice)
    (m : List (String × NicDeviceStatus)) (e : EngineError) (pn sn : String) :
    (d.VendorID = MellanoxVendor → parseInt16 d.ClassID = none →
      discoverLoop hu nodeName (d :: rest) m = discoverLoop hu nodeName rest m) ∧
    (d.VendorID = MellanoxVendor → parseInt16 d.ClassID = some NetClass →
      hu.isSriovVF d.Address = false →
      hu.getPartAndSerialNumber d.Address = .error e →
      discoverLoop hu nodeName (d :: rest) m = .error e) ∧
    (d.VendorID = MellanoxVendor → parseInt16 d.ClassID = some NetClass →
      hu.isSriovVF d.Address = false →
      hu.getPartAndSerialNumber d.Address = .ok (pn, sn) →
      alistLookup m sn = none →
      hu.getFirmwareVersionAndPSID d.Address = .error e →
      discoverLoop hu nodeName (d :: rest) m = .error e) ∧
    (hu.getPCIDevices = .ok (d :: rest) →
      DiscoverNicDevices hu nodeName = discoverLoop hu nodeName (d :: rest) []) := by
  refine ⟨?_, ?_, ?_, ?_⟩
  · intro hv hcls
    simp only [discoverLoop, discoverStep_skip_class hu nodeName m d hv hcls]
  · intro hv hcls hvf hps
    simp only [discoverLoop,
      discoverStep_partSerial_error hu nodeName m d e hv hcls hvf hps]
  · intro hv hcls hvf hps hfound hfw
    simp only [discoverLoop,
      discoverStep_fw_error hu nodeName m d pn sn e hv hcls hvf hps hfound hfw]
  · intro hpci
    simp only [DiscoverNicDevices, hpci]

/-- Claim C9 witness: all four parts on concrete inputs — an unparseable
class code is skipped, a part/serial failure and a firmware/PSID failure
each abort the run with the error, and the entry point reduces to the
loop. -/
theorem discover_failure_policy_witness :
    discoverLoop huBase "node-a" [pciBadClass] [] =
      discoverLoop huBase "node-a" [] [] ∧
    discoverLoop huPartErr "node-a" [pciGood] [] =
      .error (.hostError "lspci failed") ∧
    discoverLoop huFwErr "node-a" [pciGood] [] =
      .error (.hostError "mstflint failed") ∧
    DiscoverNicDevices huPartErr "node-a" =
      discoverLoop huPartErr "node-a" [pciGood] [] :=
  ⟨(discover_failure_policy huBase "node-a" pciBadClass [] []
      (.hostError "x") "" "").1 rfl (by decide),
   (discover_failure_policy huPartErr "node-a" pciGood [] []
      (.hostError "lspci failed") "" "").2.1 rfl (by decide) rfl rfl,
   (discover_failure_policy huFwErr "node-a" pciGood [] []
      (.hostError "mstflint failed") "P3653X" "SN100").2.2.1
      rfl (by decide) rfl rfl rfl rfl,
   (discover_failure_policy huPartErr "node-a" pciGood [] []
      (.hostError "lspci failed") "" "").2.2.2 rfl⟩

/-! ### Claim C10 -/

/-- Claim C10: every entry of a successful DiscoverNicDevices result is
keyed by its own SerialNumber field, carries the manager's node name, and
has a non-empty port list. -/
theorem discover_result_invariant (hu : HostUtils) (nodeName : String)
    (m : List (String × NicDeviceStatus))
    (h : DiscoverNicDevices hu nodeName = .ok m) :
    ∀ p ∈ m, p.2.SerialNumber = p.1 ∧ p.2.Node = nodeName ∧ ¬ p.2.Ports = [] := by
  unfold DiscoverNicDevices at h
  cases hpci : hu.getPCIDevices with
  | error e => rw [hpci] at h; cases h
  | ok ds =>
    rw [hpci] at h
    exact discoverLoop_inv hu nodeName ds [] m (by simp) h

/-- Claim C10 witness: the invariant instantiated on the concrete result
of discovering one device. -/
theorem discover_result_invariant_witness :
    stW10.SerialNumber = "SN100" ∧ stW10.Node = "node-a" ∧ ¬ stW10.Ports = [] :=
  discover_result_invariant huW10 "node-a" [("SN100", stW10)] rfl
    ("SN100", stW10) (List.mem_singleton.mpr rfl)
